import Mathlib

/-!
Shallow embedding of the control connection of the Cassandra C++ driver
(src/cpp-driver/src/control_connection.cpp) and proofs about its behaviour.

The embedding translates the functions of that file into pure Lean
definitions.  Stateful code is modelled by explicit state passing; calls to
external collaborators (the session, the metadata store, the token map, the
load-balancing policy) are recorded as explicit action values in a trace.
-/

namespace Cass

/-- Control connection state (CONTROL_STATE_NEW / READY / CLOSED). -/
inductive ControlState
  | NEW
  | READY
  | CLOSED
deriving DecidableEq, Repr

/-- Error codes surfaced to the session (subset used by the control connection). -/
inductive CassError
  | UNABLE_TO_DETERMINE_PROTOCOL
  | BAD_CREDENTIALS
  | UNABLE_TO_CONNECT
  | NO_HOSTS_AVAILABLE
deriving DecidableEq, Repr

/-- Modelled from the spec: a server version parsed as major.minor.patch
(class VersionNumber; its header is not part of the sources). -/
structure VersionNumber where
  major : Nat
  minor : Nat
  patch : Nat
deriving DecidableEq, Repr

/-- Modelled from the spec: VersionNumber comparison is lexicographic on
(major, minor, patch); the code uses it only through thresholds such as
V >= 3.0.0. -/
def VersionNumber.geb (a b : VersionNumber) : Bool :=
  decide (b.major < a.major) ||
    (decide (a.major = b.major) &&
      (decide (b.minor < a.minor) ||
        (decide (a.minor = b.minor) && decide (b.patch ≤ a.patch))))

/-- Modelled from the spec: VersionNumber::parse reads a major.minor.patch
string (the implementation is not part of the sources). -/
def VersionNumber.parse (s : String) : Option VersionNumber :=
  match (s.splitOn ".").mapM String.toNat? with
  | some [a, b, c] => some ⟨a, b, c⟩
  | _ => none

/-- An IP address without its port; the two constructors model the two
address families so that the IPv4 and IPv6 bind-any wildcards differ. -/
inductive IpAddr
  | v4 (a : Nat)
  | v6 (a : Nat)
deriving DecidableEq, Repr

/-- A socket address: IP plus port (class Address). -/
structure Address where
  ip : IpAddr
  port : Nat
deriving DecidableEq, Repr

/-- Address::BIND_ANY_IPV4 (0.0.0.0). -/
def Address.BIND_ANY_IPV4 : Address := ⟨IpAddr.v4 0, 0⟩

/-- Address::BIND_ANY_IPV6 (::). -/
def Address.BIND_ANY_IPV6 : Address := ⟨IpAddr.v6 0, 0⟩

/-- Address::compare with with_port=false: equality that ignores the port. -/
def Address.equalsNoPort (a b : Address) : Prop := a.ip = b.ip

instance (a b : Address) : Decidable (a.equalsNoPort b) := by
  unfold Address.equalsNoPort; infer_instance

/-- A column value as the resolver sees it: either null or an inet-typed
value that either decodes to an IP or is malformed. -/
inductive Value
  | null
  | inet (decoded : Option IpAddr)
deriving DecidableEq, Repr

/-- Value::is_null. -/
def Value.is_null : Value → Bool
  | .null => true
  | .inet _ => false

/-- decoder().as_inet(size, port, out): decoding an inet column with a given
port; a null or malformed value fails, a well-formed one yields the IP
paired with the supplied port. -/
def Value.as_inet (v : Value) (port : Nat) : Option Address :=
  match v with
  | .null => none
  | .inet none => none
  | .inet (some ip) => some ⟨ip, port⟩

/-- ControlConnection::determine_address_for_peer_host.  Returns the address
used to contact the peer, or none when the row is rejected. -/
def determine_address_for_peer_host (connected_address : Address)
    (peer_value rpc_value : Value) : Option Address :=
  match peer_value.as_inet connected_address.port with
  | none => none -- "Invalid address format for peer address"
  | some peer_address =>
    if ¬ rpc_value.is_null then
      match rpc_value.as_inet connected_address.port with
      | none => none -- "Invalid address format for rpc address"
      | some output =>
        if connected_address = output ∨ connected_address = peer_address then
          none -- self-referential entry
        else if Address.BIND_ANY_IPV4.equalsNoPort output ∨
                Address.BIND_ANY_IPV6.equalsNoPort output then
          some peer_address -- bind-any: use listen_address instead
        else
          some output
    else
      none -- "No rpc_address for host"

/-- Written from the claim C2's rules, to be compared with
determine_address_for_peer_host: rule (1) reject when P fails to decode,
(2) reject when R is null, (3) reject when R fails to decode, (4) reject
when the decoded R or decoded P equals A, (5) substitute the decoded P when
the decoded R is a wildcard, (6) otherwise return the decoded R. -/
def determine_address_spec (a : Address) (p r : Value) : Option Address :=
  match p.as_inet a.port with
  | none => none
  | some pAddr =>
    if r.is_null then none
    else
      match r.as_inet a.port with
      | none => none
      | some rAddr =>
        if rAddr = a ∨ pAddr = a then none
        else if rAddr.equalsNoPort Address.BIND_ANY_IPV4 ∨
                rAddr.equalsNoPort Address.BIND_ANY_IPV6 then some pAddr
        else some rAddr

/-- Modelled from the spec: Random::next(max) yields a random index reduced
modulo max (class Random is not part of the sources; the spec seeds the
startup plan "by choosing a random starting index modulo len(hosts)"). -/
def Random.next (r : Nat) (max : Nat) : Nat := r % max

/-- State of a ControlStartupQueryPlan: the host list snapshot, the random
starting index and the number of hosts already produced. -/
structure ControlStartupQueryPlan (α : Type) where
  hosts : List α
  index : Nat
  count : Nat
deriving DecidableEq, Repr

/-- The ControlStartupQueryPlan constructor: index_ is the random value
reduced modulo max(1, hosts.size()), count_ starts at 0; a missing PRNG
gives index 0. -/
def mkControlStartupQueryPlan {α : Type} (hosts : List α) (random : Option Nat) :
    ControlStartupQueryPlan α :=
  { hosts := hosts
    index := match random with
      | some r => Random.next r (Nat.max 1 hosts.length)
      | none => 0
    count := 0 }

/-- ControlStartupQueryPlan::compute_next: none once count_ reaches the host
count, otherwise the host at (index_ + count_) % size with count_ bumped. -/
def ControlStartupQueryPlan.compute_next {α : Type}
    (p : ControlStartupQueryPlan α) : Option α × ControlStartupQueryPlan α :=
  if h : p.hosts.length ≤ p.count then
    (none, p)
  else
    (some (p.hosts.get ⟨(p.index + p.count) % p.hosts.length,
             Nat.mod_lt _ (Nat.lt_of_le_of_lt (Nat.zero_le _) (Nat.lt_of_not_le h))⟩),
     { p with count := p.count + 1 })

/-- Run a plan for a given number of compute_next calls, collecting the
produced hosts and the final plan state; stops early on exhaustion. -/
def planRunAux {α : Type} :
    ControlStartupQueryPlan α → Nat → List α × ControlStartupQueryPlan α
  | p, 0 => ([], p)
  | p, Nat.succ k =>
    match p.compute_next with
    | (none, p') => ([], p')
    | (some a, p') =>
      let rest := planRunAux p' k
      (a :: rest.1, rest.2)

/-- The hosts produced by the first n compute_next calls of a plan. -/
def planRun {α : Type} (p : ControlStartupQueryPlan α) (n : Nat) : List α :=
  (planRunAux p n).1

/-- Modelled from the spec: DSE_PROTOCOL_VERSION_BIT, the high bit marking
the DSE lineage of a negotiated protocol version (constants.hpp is not part
of the sources). -/
def DSE_PROTOCOL_VERSION_BIT : Nat := 0x40

/-- Modelled from the spec: DSE_PROTOCOL_VERSION_MASK, the low bits holding
the DSE subversion. -/
def DSE_PROTOCOL_VERSION_MASK : Nat := 0x3F

/-- Modelled from the spec: the highest supported Cassandra protocol
version, the value tried after the DSE lineage is exhausted. -/
def CASS_HIGHEST_SUPPORTED_PROTOCOL_VERSION : Nat := 4

/-- Outcome classification of a Connector handed to handle_connect. -/
inductive ConnectResult
  | ok
  | invalidProtocol
  | authError
  | sslError
  | otherError
deriving DecidableEq, Repr

/-- What ControlConnection::handle_connect does after classifying the
connector outcome. -/
inductive HandleConnectAction
  | queryMetaHosts
  | fatal (code : CassError)
  | reconnectWith (retryCurrentHost : Bool)
deriving DecidableEq, Repr

/-- ControlConnection::handle_connect, as a function of the control state,
the current protocol version and the connector outcome.  Returns the action
taken together with the (possibly decremented) protocol version. -/
def handle_connect (state : ControlState) (protocol_version : Nat)
    (res : ConnectResult) : HandleConnectAction × Nat :=
  match res with
  | .ok => (.queryMetaHosts, protocol_version)
  | .invalidProtocol =>
    if state = ControlState.NEW then
      if protocol_version ≤ 1 then
        (.fatal CassError.UNABLE_TO_DETERMINE_PROTOCOL, protocol_version)
      else
        let is_dse_version := protocol_version &&& DSE_PROTOCOL_VERSION_BIT ≠ 0
        let next_version :=
          if is_dse_version then
            if protocol_version &&& DSE_PROTOCOL_VERSION_MASK ≤ 1 then
              CASS_HIGHEST_SUPPORTED_PROTOCOL_VERSION
            else
              protocol_version - 1
          else
            protocol_version - 1
        (.reconnectWith true, next_version)
    else
      (.reconnectWith false, protocol_version)
  | .authError =>
    if state = ControlState.NEW then (.fatal CassError.BAD_CREDENTIALS, protocol_version)
    else (.reconnectWith false, protocol_version)
  | .sslError =>
    if state = ControlState.NEW then (.fatal CassError.UNABLE_TO_CONNECT, protocol_version)
    else (.reconnectWith false, protocol_version)
  | .otherError => (.reconnectWith false, protocol_version)

/-- What ControlConnection::reconnect does: nothing (CLOSED), schedule the
retry timer, report a fatal error to the session, or start a connect
attempt to a host. -/
inductive ReconnectAction (α : Type)
  | noAction
  | scheduleReconnect (ms : Nat)
  | reportError (code : CassError) (message : String)
  | connectTo (host : α)
deriving DecidableEq, Repr

/-- ControlConnection::reconnect(retry_current_host).  Returns the action
taken, the new current host and the new plan state.  When
retry_current_host is set the caller guarantees current_host_ is non-null;
the none case is unreachable there. -/
def reconnect {α : Type} (state : ControlState) (retry_current_host : Bool)
    (current_host : Option α) (query_plan : ControlStartupQueryPlan α) :
    ReconnectAction α × Option α × ControlStartupQueryPlan α :=
  if state = ControlState.CLOSED then
    (.noAction, current_host, query_plan)
  else if retry_current_host then
    match current_host with
    | some h => (.connectTo h, current_host, query_plan)
    | none => (.noAction, current_host, query_plan)
  else
    match query_plan.compute_next with
    | (none, plan') =>
      if state = ControlState.READY then
        (.scheduleReconnect 1000, none, plan')
      else
        (.reportError CassError.NO_HOSTS_AVAILABLE
           "No hosts available for the control connection", none, plan')
    | (some h, plan') => (.connectTo h, some h, plan')

/-- Calls made by the control connection into the session, the metadata
store, the token map and the load-balancing policy, recorded as trace
elements. -/
inductive Action
  | addHost (a : Address)
  | onAdd (a : Address)
  | onRemove (a : Address)
  | onUp (a : Address)
  | onDown (a : Address)
  | tokenMapHostRemove (a : Option Address)
  | refreshNodeInfo (a : Address) (isNewNode : Bool) (queryTokens : Bool)
  | refreshKeyspace (ks : String)
  | refreshTableOrView (ks table : String)
  | refreshType (ks ty : String)
  | refreshFunction (ks name : String) (argTypes : List String) (isAggregate : Bool)
  | dropKeyspace (ks : String)
  | dropTableOrView (ks table : String)
  | dropUserType (ks ty : String)
  | dropFunction (ks fullName : String)
  | dropAggregate (ks fullName : String)
  | lbHostAddRemove (a : Address) (isAdd : Bool)
  | tokenMapInit (partitioner : String)
  | tokenMapHostUpdate (a : Address)
  | tokenMapHostAdd (a : Address)
  | tokenMapKeyspacesAdd
  | tokenMapKeyspacesUpdate
  | clearAndUpdateBack
  | updateKeyspaces
  | updateTables
  | updateViews
  | updateColumns
  | updateIndexes
  | updateUserTypes
  | updateFunctions
  | updateAggregates
  | swapToBackAndUpdateFront
  | onControlConnectionReady
  | newQueryPlan
  | setState (s : ControlState)
  | logError
deriving DecidableEq, Repr

/-- Modelled from the spec: Metadata::full_function_name builds the
fully-qualified name of a function or aggregate from its name and argument
types (metadata.hpp is not part of the sources). -/
def full_function_name (name : String) (argTypes : List String) : String :=
  name ++ "(" ++ String.intercalate "," argTypes ++ ")"

/-- The host record fields the control connection reads and writes (class
Host; its header is not part of the sources, the fields follow the spec's
host record).  The listen address is kept in decoded form. -/
structure Host where
  address : Address
  rack : String
  dc : String
  cassandraVersion : VersionNumber
  listenAddress : Option Address
  wasJustAdded : Bool
  isUp : Bool
deriving DecidableEq, Repr

/-- EventResponse topology change kinds. -/
inductive TopologyChangeType
  | NEW_NODE
  | REMOVED_NODE
  | MOVED_NODE
deriving DecidableEq, Repr

/-- EventResponse status change kinds. -/
inductive StatusChangeType
  | UP
  | DOWN
deriving DecidableEq, Repr

/-- EventResponse schema change kinds. -/
inductive SchemaChangeType
  | CREATED
  | UPDATED
  | DROPPED
deriving DecidableEq, Repr

/-- EventResponse schema change targets. -/
inductive SchemaChangeTarget
  | KEYSPACE
  | TABLE
  | TYPE
  | FUNCTION
  | AGGREGATE
deriving DecidableEq, Repr

/-- A server-pushed event (class EventResponse). -/
inductive EventResponse
  | topologyChange (tc : TopologyChangeType) (affectedNode : Address)
  | statusChange (sc : StatusChangeType) (affectedNode : Address)
  | schemaChange (sc : SchemaChangeType) (target : SchemaChangeTarget)
      (keyspace : String) (name : String) (argTypes : List String)
deriving DecidableEq, Repr

/-- ControlConnection::on_up, called from the UP status event. -/
def on_up (getHost : Address → Option Host) (address : Address) : List Action :=
  match getHost address with
  | some host =>
    if host.isUp then []
    else [Action.onUp address, Action.refreshNodeInfo address false false]
  | none => [Action.addHost address, Action.refreshNodeInfo address true false]

/-- ControlConnection::on_down, called from the DOWN status event. -/
def on_down (getHost : Address → Option Host) (address : Address) : List Action :=
  match getHost address with
  | some host =>
    if ¬ host.isUp then [] -- host->is_down()
    else [Action.onDown address]
  | none => [] -- log only

/-- ControlConnection::on_event: the server-push event handler.  Events are
dropped before READY; afterwards they dispatch into the session, the token
map, the metadata store and the targeted refresh queries. -/
def on_event (state : ControlState) (use_schema : Bool)
    (getHost : Address → Option Host) (response : EventResponse) : List Action :=
  if state ≠ ControlState.READY then []
  else
    match response with
    | .topologyChange tc a =>
      match tc with
      | .NEW_NODE =>
        match getHost a with
        | some _ => []
        | none => [Action.addHost a, Action.refreshNodeInfo a true true]
      | .REMOVED_NODE =>
        match getHost a with
        | some _ => [Action.onRemove a, Action.tokenMapHostRemove (some a)]
        | none => [] -- log only
      | .MOVED_NODE =>
        match getHost a with
        | some _ => [Action.refreshNodeInfo a false true]
        | none => [Action.tokenMapHostRemove none] -- log, then remove with null host
    | .statusChange sc a =>
      match sc with
      | .UP => on_up getHost a
      | .DOWN => on_down getHost a
    | .schemaChange sc target ks name argTypes =>
      if ¬ use_schema ∧ target ≠ SchemaChangeTarget.KEYSPACE then []
      else
        match sc with
        | .CREATED | .UPDATED =>
          match target with
          | .KEYSPACE => [Action.refreshKeyspace ks]
          | .TABLE => [Action.refreshTableOrView ks name]
          | .TYPE => [Action.refreshType ks name]
          | .FUNCTION => [Action.refreshFunction ks name argTypes false]
          | .AGGREGATE => [Action.refreshFunction ks name argTypes true]
        | .DROPPED =>
          match target with
          | .KEYSPACE => [Action.dropKeyspace ks]
          | .TABLE => [Action.dropTableOrView ks name]
          | .TYPE => [Action.dropUserType ks name]
          | .FUNCTION => [Action.dropFunction ks (full_function_name name argTypes)]
          | .AGGREGATE => [Action.dropAggregate ks (full_function_name name argTypes)]

/-- Query string SELECT_KEYSPACES_20. -/
def SELECT_KEYSPACES_20 : String := "SELECT * FROM system.schema_keyspaces"

/-- Query string SELECT_COLUMN_FAMILIES_20. -/
def SELECT_COLUMN_FAMILIES_20 : String := "SELECT * FROM system.schema_columnfamilies"

/-- Query string SELECT_COLUMNS_20. -/
def SELECT_COLUMNS_20 : String := "SELECT * FROM system.schema_columns"

/-- Query string SELECT_USERTYPES_21. -/
def SELECT_USERTYPES_21 : String := "SELECT * FROM system.schema_usertypes"

/-- Query string SELECT_FUNCTIONS_22. -/
def SELECT_FUNCTIONS_22 : String := "SELECT * FROM system.schema_functions"

/-- Query string SELECT_AGGREGATES_22. -/
def SELECT_AGGREGATES_22 : String := "SELECT * FROM system.schema_aggregates"

/-- Query string SELECT_KEYSPACES_30. -/
def SELECT_KEYSPACES_30 : String := "SELECT * FROM system_schema.keyspaces"

/-- Query string SELECT_TABLES_30. -/
def SELECT_TABLES_30 : String := "SELECT * FROM system_schema.tables"

/-- Query string SELECT_VIEWS_30. -/
def SELECT_VIEWS_30 : String := "SELECT * FROM system_schema.views"

/-- Query string SELECT_COLUMNS_30. -/
def SELECT_COLUMNS_30 : String := "SELECT * FROM system_schema.columns"

/-- Query string SELECT_INDEXES_30. -/
def SELECT_INDEXES_30 : String := "SELECT * FROM system_schema.indexes"

/-- Query string SELECT_USERTYPES_30. -/
def SELECT_USERTYPES_30 : String := "SELECT * FROM system_schema.types"

/-- Query string SELECT_FUNCTIONS_30. -/
def SELECT_FUNCTIONS_30 : String := "SELECT * FROM system_schema.functions"

/-- Query string SELECT_AGGREGATES_30. -/
def SELECT_AGGREGATES_30 : String := "SELECT * FROM system_schema.aggregates"

/-- ControlConnection::query_meta_schema: builds the chained bulk schema
read as a list of (chain key, query) pairs, or none when the early return
fires because neither schema tracking nor token-aware routing is on. -/
def query_meta_schema (use_schema token_aware_routing : Bool)
    (cassandra_version : VersionNumber) : Option (List (String × String)) :=
  if ¬ use_schema ∧ ¬ token_aware_routing then none
  else if cassandra_version.geb ⟨3, 0, 0⟩ then
    some (("keyspaces", SELECT_KEYSPACES_30) ::
      (if use_schema then
        [("tables", SELECT_TABLES_30),
         ("views", SELECT_VIEWS_30),
         ("columns", SELECT_COLUMNS_30),
         ("indexes", SELECT_INDEXES_30),
         ("user_types", SELECT_USERTYPES_30),
         ("functions", SELECT_FUNCTIONS_30),
         ("aggregates", SELECT_AGGREGATES_30)]
      else []))
  else
    some (("keyspaces", SELECT_KEYSPACES_20) ::
      (if use_schema then
        [("tables", SELECT_COLUMN_FAMILIES_20),
         ("columns", SELECT_COLUMNS_20)] ++
        (if cassandra_version.geb ⟨2, 1, 0⟩ then
          [("user_types", SELECT_USERTYPES_21)]
        else []) ++
        (if cassandra_version.geb ⟨2, 2, 0⟩ then
          [("functions", SELECT_FUNCTIONS_22),
           ("aggregates", SELECT_AGGREGATES_22)]
        else [])
      else []))

/-- Which chained results are present (non-null) when on_query_meta_schema
runs, one flag per chain key. -/
structure SchemaResults where
  keyspaces : Bool
  tables : Bool
  views : Bool
  columns : Bool
  indexes : Bool
  user_types : Bool
  functions : Bool
  aggregates : Bool
deriving DecidableEq, Repr

/-- The update_* calls of on_query_meta_schema into the back buffer, one
per present result, in program order. -/
def schemaUpdates (r : SchemaResults) : List Action :=
  (if r.keyspaces then [Action.updateKeyspaces] else []) ++
  (if r.tables then [Action.updateTables] else []) ++
  (if r.views then [Action.updateViews] else []) ++
  (if r.columns then [Action.updateColumns] else []) ++
  (if r.indexes then [Action.updateIndexes] else []) ++
  (if r.user_types then [Action.updateUserTypes] else []) ++
  (if r.functions then [Action.updateFunctions] else []) ++
  (if r.aggregates then [Action.updateAggregates] else [])

/-- ControlConnection::on_query_meta_schema: the bulk schema refresh
response handler, as the trace of calls it makes. -/
def on_query_meta_schema (connection_null : Bool) (use_schema token_aware_routing : Bool)
    (r : SchemaResults) (is_initial_connection : Bool) : List Action :=
  if connection_null then []
  else
    (if token_aware_routing then [Action.tokenMapKeyspacesAdd] else []) ++
    (if use_schema then
      Action.clearAndUpdateBack :: (schemaUpdates r ++ [Action.swapToBackAndUpdateFront])
    else []) ++
    (if is_initial_connection then
      [Action.setState ControlState.READY, Action.onControlConnectionReady,
       Action.newQueryPlan]
    else [])

/-- Is this action one of the eight metadata update_* calls writing the
back buffer? -/
def isUpdateOp : Action → Bool
  | .updateKeyspaces | .updateTables | .updateViews | .updateColumns
  | .updateIndexes | .updateUserTypes | .updateFunctions | .updateAggregates => true
  | _ => false

/-- Is this action a call into the metadata store (back-buffer clear,
update_* or the front swap)? -/
def isMetadataOp (a : Action) : Bool :=
  a = Action.clearAndUpdateBack || isUpdateOp a || a = Action.swapToBackAndUpdateFront

/-- Modelled from the spec: the double-buffered metadata store.  Each
snapshot is represented by the list of update_* actions applied to it since
the last clear. -/
structure MetadataBuffers where
  front : List Action
  back : List Action
deriving DecidableEq, Repr

/-- Modelled from the spec: the effect of one metadata call on the two
buffers.  clear_and_update_back empties the back, update_* writes the back,
swap_to_back_and_update_front exchanges front and back; nothing else
touches the store. -/
def metaApply (m : MetadataBuffers) (a : Action) : MetadataBuffers :=
  if a = Action.clearAndUpdateBack then { m with back := [] }
  else if isUpdateOp a then { m with back := m.back ++ [a] }
  else if a = Action.swapToBackAndUpdateFront then ⟨m.back, m.front⟩
  else m

/-- Fold a trace of calls over the metadata store. -/
def metaApplyList (m : MetadataBuffers) (l : List Action) : MetadataBuffers :=
  l.foldl metaApply m

/-- Row count of a possibly missing result: none models a null
ResultResponse. -/
def resultEmpty : Option Nat → Bool
  | none => true
  | some rowCount => rowCount == 0

/-- ControlConnection::on_refresh_keyspace, as the trace of calls it
makes, given the row count of the response. -/
def on_refresh_keyspace (token_aware_routing use_schema : Bool)
    (row_count : Nat) : List Action :=
  if row_count = 0 then [Action.logError]
  else
    (if token_aware_routing then [Action.tokenMapKeyspacesUpdate] else []) ++
    (if use_schema then [Action.updateKeyspaces] else [])

/-- ControlConnection::on_refresh_table_or_view, given the row counts of
the chained results (none for a missing result).  When both the tables and
the views results are empty the handler logs and returns before the
columns and indexes updates. -/
def on_refresh_table_or_view (tables_result views_result
    columns_result indexes_result : Option Nat) : List Action :=
  let tail :=
    (if columns_result.isSome then [Action.updateColumns] else []) ++
    (if indexes_result.isSome then [Action.updateIndexes] else [])
  if resultEmpty tables_result then
    if resultEmpty views_result then [Action.logError]
    else Action.updateViews :: tail
  else Action.updateTables :: tail

/-- ControlConnection::on_refresh_type, given the row count of the
response. -/
def on_refresh_type (row_count : Nat) : List Action :=
  if row_count = 0 then [Action.logError]
  else [Action.updateUserTypes]

/-- ControlConnection::on_refresh_function, given the row count of the
response. -/
def on_refresh_function (is_aggregate : Bool) (row_count : Nat) : List Action :=
  if row_count = 0 then [Action.logError]
  else if is_aggregate then [Action.updateAggregates]
  else [Action.updateFunctions]

/-- The UpdateHostType argument of update_node_info. -/
inductive UpdateHostType
  | ADD_HOST
  | UPDATE_HOST_AND_BUILD
deriving DecidableEq, Repr

/-- A system.local / system.peers row as update_node_info reads it: each
column either absent/null (none) or carrying its value.  The peer column
carries its inet decode result; the tokens column carries its
is_collection flag. -/
structure Row where
  rack : Option String
  data_center : Option String
  release_version : Option String
  peer : Option (Option IpAddr)
  partitioner : Option String
  tokens : Option Bool
deriving DecidableEq, Repr

/-- The token-map block at the end of ControlConnection::update_node_info:
under token-aware routing, initialize the token map from the connected
host's partitioner column and add or update the host's tokens. -/
def update_node_info_token_block (token_aware_routing : Bool)
    (connection_address : Address) (host : Host) (row : Row)
    (ty : UpdateHostType) : List Action :=
  if token_aware_routing then
    (if host.address = connection_address ∧ row.partitioner.isSome then
      [Action.tokenMapInit (row.partitioner.getD "")]
    else []) ++
    (match row.tokens with
     | some true =>
       if ty = UpdateHostType.UPDATE_HOST_AND_BUILD then
         [Action.tokenMapHostUpdate host.address]
       else [Action.tokenMapHostAdd host.address]
     | _ => [])
  else []

/-- ControlConnection::update_node_info.  connection_address is the address
of the live control connection (callers run under a non-null connection).
Returns the reconciled host and the trace of calls into the session. -/
def update_node_info (token_aware_routing : Bool) (connection_address : Address)
    (host : Host) (row : Row) (ty : UpdateHostType) : Host × List Action :=
  let rack := row.rack.getD ""
  let dc := row.data_center.getD ""
  let release_version := row.release_version.getD ""
  -- peer column: present in "system.peers" rows only; sets the listen address
  let host1 :=
    match row.peer with
    | some (some ip) => { host with listenAddress := some ⟨ip, connection_address.port⟩ }
    | some none => host -- "Invalid address format for listen address"
    | none => host
  -- DC/rack reconciliation with the load-balancing rebalance callbacks
  let rackDcChanged := (rack ≠ "" ∧ rack ≠ host.rack) ∨ (dc ≠ "" ∧ dc ≠ host.dc)
  let lbBefore :=
    if rackDcChanged ∧ ¬ host.wasJustAdded then
      [Action.lbHostAddRemove host.address false]
    else []
  let host2 :=
    if rackDcChanged then { host1 with rack := rack, dc := dc } else host1
  let lbAfter :=
    if rackDcChanged ∧ ¬ host.wasJustAdded then
      [Action.lbHostAddRemove host.address true]
    else []
  -- release version
  let host3 :=
    match VersionNumber.parse release_version with
    | some v => { host2 with cassandraVersion := v }
    | none => host2 -- "Invalid release version string"
  (host3, lbBefore ++ lbAfter
    ++ update_node_info_token_block token_aware_routing connection_address host row ty)

/-! Helper lemmas about the startup query plan. -/

lemma compute_next_of_lt {α : Type} (hosts : List α) (i c : Nat) (h : c < hosts.length) :
    ControlStartupQueryPlan.compute_next ⟨hosts, i, c⟩
      = (some (hosts.get ⟨(i + c) % hosts.length,
            Nat.mod_lt _ (Nat.lt_of_le_of_lt (Nat.zero_le _) h)⟩),
         ⟨hosts, i, c + 1⟩) := by
  unfold ControlStartupQueryPlan.compute_next
  split
  · rename_i hle
    exact absurd (by simpa using hle) (Nat.not_le.mpr h)
  · rfl

lemma compute_next_of_ge {α : Type} (hosts : List α) (i c : Nat) (h : hosts.length ≤ c) :
    ControlStartupQueryPlan.compute_next ⟨hosts, i, c⟩ = (none, ⟨hosts, i, c⟩) := by
  unfold ControlStartupQueryPlan.compute_next
  split
  · rfl
  · rename_i hgt
    exact absurd h (by simpa using hgt)

lemma planRunAux_succ_of_lt {α : Type} (hosts : List α) (i c m : Nat)
    (h : c < hosts.length) :
    planRunAux ⟨hosts, i, c⟩ (m + 1)
      = (hosts.get ⟨(i + c) % hosts.length,
            Nat.mod_lt _ (Nat.lt_of_le_of_lt (Nat.zero_le _) h)⟩
           :: (planRunAux ⟨hosts, i, c + 1⟩ m).1,
         (planRunAux ⟨hosts, i, c + 1⟩ m).2) := by
  conv_lhs => rw [planRunAux]
  rw [compute_next_of_lt hosts i c h]

lemma planRunAux_length {α : Type} (hosts : List α) (i : Nat) :
    ∀ m c, c + m ≤ hosts.length → (planRunAux ⟨hosts, i, c⟩ m).1.length = m := by
  intro m
  induction m with
  | zero => intro c _; rfl
  | succ k ih =>
    intro c hc
    rw [planRunAux_succ_of_lt hosts i c k (by omega)]
    simp [ih (c + 1) (by omega)]

lemma planRunAux_state {α : Type} (hosts : List α) (i : Nat) :
    ∀ m c, c + m ≤ hosts.length → (planRunAux ⟨hosts, i, c⟩ m).2 = ⟨hosts, i, c + m⟩ := by
  intro m
  induction m with
  | zero => intro c _; rfl
  | succ k ih =>
    intro c hc
    rw [planRunAux_succ_of_lt hosts i c k (by omega)]
    rw [ih (c + 1) (by omega)]
    congr 1
    omega

lemma planRunAux_get? {α : Type} (hosts : List α) (i : Nat) :
    ∀ m c k, c + m ≤ hosts.length → k < m →
      (planRunAux ⟨hosts, i, c⟩ m).1.get? k = hosts.get? ((i + c + k) % hosts.length) := by
  intro m
  induction m with
  | zero => intro c k _ hk; omega
  | succ n ih =>
    intro c k hc hk
    rw [planRunAux_succ_of_lt hosts i c n (by omega)]
    match k with
    | 0 =>
      simp only [List.get?_cons_zero, Nat.add_zero]
      rw [List.get?_eq_get (Nat.mod_lt (i + c) (show 0 < hosts.length by omega))]
    | Nat.succ j =>
      simp only [List.get?_cons_succ]
      rw [ih (c + 1) j (by omega) (by omega)]
      have harith : i + (c + 1) + j = i + c + Nat.succ j := by omega
      rw [harith]

/-- C1: on an invalid-protocol handshake failure in state NEW with protocol
version v > 1, the next version tried is v-1 when the DSE bit is set with
subversion > 1, the highest supported Cassandra version when the DSE bit is
set with subversion <= 1, and v-1 otherwise; the retry goes to the same
host without advancing the query plan.  When v <= 1 the session receives
UNABLE_TO_DETERMINE_PROTOCOL and no further connect attempt is made. -/
theorem handle_connect_invalid_protocol_negotiation {α : Type} (v : Nat) (h : α)
    (plan : ControlStartupQueryPlan α) :
    (1 < v → v &&& DSE_PROTOCOL_VERSION_BIT ≠ 0 → 1 < v &&& DSE_PROTOCOL_VERSION_MASK →
      handle_connect ControlState.NEW v ConnectResult.invalidProtocol
        = (HandleConnectAction.reconnectWith true, v - 1))
    ∧ (1 < v → v &&& DSE_PROTOCOL_VERSION_BIT ≠ 0 → v &&& DSE_PROTOCOL_VERSION_MASK ≤ 1 →
      handle_connect ControlState.NEW v ConnectResult.invalidProtocol
        = (HandleConnectAction.reconnectWith true, CASS_HIGHEST_SUPPORTED_PROTOCOL_VERSION))
    ∧ (1 < v → v &&& DSE_PROTOCOL_VERSION_BIT = 0 →
      handle_connect ControlState.NEW v ConnectResult.invalidProtocol
        = (HandleConnectAction.reconnectWith true, v - 1))
    ∧ reconnect ControlState.NEW true (some h) plan
        = (ReconnectAction.connectTo h, some h, plan)
    ∧ (v ≤ 1 →
      handle_connect ControlState.NEW v ConnectResult.invalidProtocol
        = (HandleConnectAction.fatal CassError.UNABLE_TO_DETERMINE_PROTOCOL, v)) := by
  refine ⟨?_, ?_, ?_, ?_, ?_⟩
  · intro h1 h2 h3
    simp [handle_connect, Nat.not_le.mpr h1, h2, Nat.not_le.mpr h3]
  · intro h1 h2 h3
    simp [handle_connect, Nat.not_le.mpr h1, h2, h3]
  · intro h1 h2
    simp [handle_connect, Nat.not_le.mpr h1, h2]
  · simp [reconnect]
  · intro h1
    simp [handle_connect, h1]

/-- Witness for C1: a DSE version with subversion 2 steps to subversion 1,
then to the highest Cassandra version, a Cassandra version decrements, a
version of 1 is fatal, and the retry reconnects to the same host with the
plan untouched. -/
theorem handle_connect_invalid_protocol_negotiation_witness :
    handle_connect ControlState.NEW 66 ConnectResult.invalidProtocol
      = (HandleConnectAction.reconnectWith true, 65)
    ∧ handle_connect ControlState.NEW 65 ConnectResult.invalidProtocol
      = (HandleConnectAction.reconnectWith true, 4)
    ∧ handle_connect ControlState.NEW 4 ConnectResult.invalidProtocol
      = (HandleConnectAction.reconnectWith true, 3)
    ∧ handle_connect ControlState.NEW 1 ConnectResult.invalidProtocol
      = (HandleConnectAction.fatal CassError.UNABLE_TO_DETERMINE_PROTOCOL, 1)
    ∧ reconnect ControlState.NEW true (some 7) (mkControlStartupQueryPlan [7] (some 0))
      = (ReconnectAction.connectTo 7, some 7, mkControlStartupQueryPlan [7] (some 0)) :=
  ⟨(handle_connect_invalid_protocol_negotiation 66 7
      (mkControlStartupQueryPlan [7] (some 0))).1 (by decide) (by decide) (by decide),
   (handle_connect_invalid_protocol_negotiation 65 7
      (mkControlStartupQueryPlan [7] (some 0))).2.1 (by decide) (by decide) (by decide),
   (handle_connect_invalid_protocol_negotiation 4 7
      (mkControlStartupQueryPlan [7] (some 0))).2.2.1 (by decide) (by decide),
   (handle_connect_invalid_protocol_negotiation 1 7
      (mkControlStartupQueryPlan [7] (some 0))).2.2.2.2 (by decide),
   (handle_connect_invalid_protocol_negotiation 1 7
      (mkControlStartupQueryPlan [7] (some 0))).2.2.2.1⟩

/-- C5: any server-pushed event delivered while the control state is not
READY is dropped without any call into the session, the metadata or the
token map. -/
theorem on_event_dropped_before_ready (state : ControlState) (use_schema : Bool)
    (getHost : Address → Option Host) (response : EventResponse)
    (h : state ≠ ControlState.READY) :
    on_event state use_schema getHost response = [] := by
  simp [on_event, h]

/-- Witness for C5: a NEW_NODE event in state NEW produces no calls. -/
theorem on_event_dropped_before_ready_witness :
    ControlState.NEW ≠ ControlState.READY
    ∧ on_event ControlState.NEW true (fun _ => none)
        (EventResponse.topologyChange TopologyChangeType.NEW_NODE ⟨IpAddr.v4 1, 9042⟩) = [] :=
  ⟨by decide,
   on_event_dropped_before_ready ControlState.NEW true (fun _ => none)
     (EventResponse.topologyChange TopologyChangeType.NEW_NODE ⟨IpAddr.v4 1, 9042⟩)
     (by decide)⟩

/-- C6: when the query plan is exhausted, state READY schedules a 1000 ms
reconnect timer and surfaces no error, state NEW reports the fatal
NO_HOSTS_AVAILABLE error; neither starts a connect attempt. -/
theorem reconnect_plan_exhausted {α : Type} (plan : ControlStartupQueryPlan α)
    (current_host : Option α) (h : (plan.compute_next).1 = none) :
    reconnect ControlState.READY false current_host plan
      = (ReconnectAction.scheduleReconnect 1000, none, (plan.compute_next).2)
    ∧ reconnect ControlState.NEW false current_host plan
      = (ReconnectAction.reportError CassError.NO_HOSTS_AVAILABLE
          "No hosts available for the control connection", none, (plan.compute_next).2) := by
  rcases hc : plan.compute_next with ⟨fst, plan'⟩
  cases fst with
  | some a => rw [hc] at h; simp at h
  | none => constructor <;> simp [reconnect, hc]

/-- Witness for C6: an exhausted plan over one host. -/
theorem reconnect_plan_exhausted_witness :
    ((⟨[5], 0, 1⟩ : ControlStartupQueryPlan Nat).compute_next).1 = none
    ∧ reconnect ControlState.READY false none (⟨[5], 0, 1⟩ : ControlStartupQueryPlan Nat)
      = (ReconnectAction.scheduleReconnect 1000, none,
         ((⟨[5], 0, 1⟩ : ControlStartupQueryPlan Nat).compute_next).2)
    ∧ reconnect ControlState.NEW false none (⟨[5], 0, 1⟩ : ControlStartupQueryPlan Nat)
      = (ReconnectAction.reportError CassError.NO_HOSTS_AVAILABLE
          "No hosts available for the control connection", none,
         ((⟨[5], 0, 1⟩ : ControlStartupQueryPlan Nat).compute_next).2) :=
  ⟨by decide,
   (reconnect_plan_exhausted (⟨[5], 0, 1⟩ : ControlStartupQueryPlan Nat) none (by decide)).1,
   (reconnect_plan_exhausted (⟨[5], 0, 1⟩ : ControlStartupQueryPlan Nat) none (by decide)).2⟩

/-- C8: every targeted schema refresh handler, on an empty response (for
table-or-view: both the tables and the views results empty), only logs an
error: no metadata or token-map update, no further query, no defunct. -/
theorem targeted_refresh_empty_result_only_logs
    (token_aware use_schema is_aggregate : Bool)
    (tables_result views_result columns_result indexes_result : Option Nat)
    (htab : resultEmpty tables_result = true) (hview : resultEmpty views_result = true) :
    on_refresh_keyspace token_aware use_schema 0 = [Action.logError]
    ∧ on_refresh_table_or_view tables_result views_result columns_result indexes_result
        = [Action.logError]
    ∧ on_refresh_type 0 = [Action.logError]
    ∧ on_refresh_function is_aggregate 0 = [Action.logError] := by
  refine ⟨by simp [on_refresh_keyspace], ?_, by simp [on_refresh_type],
    by simp [on_refresh_function]⟩
  simp [on_refresh_table_or_view, htab, hview]

/-- Witness for C8: a table-or-view refresh whose tables result is missing
and whose views result has zero rows. -/
theorem targeted_refresh_empty_result_only_logs_witness :
    resultEmpty none = true ∧ resultEmpty (some 0) = true
    ∧ on_refresh_table_or_view none (some 0) (some 3) (some 2) = [Action.logError]
    ∧ on_refresh_keyspace true true 0 = [Action.logError]
    ∧ on_refresh_type 0 = [Action.logError]
    ∧ on_refresh_function true 0 = [Action.logError] :=
  ⟨by decide, by decide,
   (targeted_refresh_empty_result_only_logs true true true none (some 0) (some 3) (some 2)
      (by decide) (by decide)).2.1,
   (targeted_refresh_empty_result_only_logs true true true none (some 0) (some 3) (some 2)
      (by decide) (by decide)).1,
   (targeted_refresh_empty_result_only_logs true true true none (some 0) (some 3) (some 2)
      (by decide) (by decide)).2.2.1,
   (targeted_refresh_empty_result_only_logs true true true none (some 0) (some 3) (some 2)
      (by decide) (by decide)).2.2.2⟩

/-- C10: building a startup query plan over an empty host map is total (the
starting index is reduced modulo max(1, 0) = 1, so it is 0), its first
compute_next already returns no host, and a NEW-state connect over it
reports NO_HOSTS_AVAILABLE instead of faulting. -/
theorem startup_plan_empty_hosts_total {α : Type} (r : Nat) :
    (mkControlStartupQueryPlan ([] : List α) (some r)).index
        = r % Nat.max 1 (List.length ([] : List α))
    ∧ (mkControlStartupQueryPlan ([] : List α) (some r)).index = 0
    ∧ ((mkControlStartupQueryPlan ([] : List α) (some r)).compute_next).1 = none
    ∧ reconnect ControlState.NEW false none (mkControlStartupQueryPlan ([] : List α) (some r))
        = (ReconnectAction.reportError CassError.NO_HOSTS_AVAILABLE
            "No hosts available for the control connection", none,
           mkControlStartupQueryPlan ([] : List α) (some r)) := by
  have hidx : (mkControlStartupQueryPlan ([] : List α) (some r)).index = 0 := by
    have hone : (mkControlStartupQueryPlan ([] : List α) (some r)).index = r % 1 := rfl
    rw [hone, Nat.mod_one]
  have hnext : (mkControlStartupQueryPlan ([] : List α) (some r)).compute_next
      = (none, mkControlStartupQueryPlan ([] : List α) (some r)) := by
    unfold mkControlStartupQueryPlan
    exact compute_next_of_ge [] _ 0 (by simp)
  refine ⟨rfl, hidx, by rw [hnext], ?_⟩
  simp [reconnect, hnext]

/-- C2: the peer address resolver applies exactly the claim's six rules in
order; determine_address_spec is the rule list transcribed from the claim,
and the source function agrees with it on every input. -/
theorem determine_address_follows_rules (a : Address) (p r : Value) :
    determine_address_for_peer_host a p r = determine_address_spec a p r := by
  rcases p with _ | (_ | pip)
  · rfl
  · rfl
  rcases r with _ | (_ | rip)
  · rfl
  · rfl
  simp only [determine_address_for_peer_host, determine_address_spec,
    Value.as_inet, Value.is_null, Address.equalsNoPort]
  have hb : ¬ (false = true) := by simp
  rw [if_pos hb, if_neg hb]
  exact if_congr (or_congr eq_comm eq_comm) rfl
    (if_congr (or_congr eq_comm eq_comm) rfl rfl)

/-- C3: over a non-empty host list and any random seed, the startup plan
yields exactly hosts.length hosts, a permutation of the host list, in
cyclic order starting at position (seed mod hosts.length); the following
compute_next call yields no host. -/
theorem startup_plan_cyclic_cover {α : Type} (hosts : List α) (r : Nat)
    (hne : hosts ≠ []) :
    planRun (mkControlStartupQueryPlan hosts (some r)) hosts.length
        = hosts.rotate (r % hosts.length)
    ∧ (planRun (mkControlStartupQueryPlan hosts (some r)) hosts.length).Perm hosts
    ∧ (∀ k, k < hosts.length →
        (planRun (mkControlStartupQueryPlan hosts (some r)) hosts.length).get? k
          = hosts.get? ((r + k) % hosts.length))
    ∧ (((planRunAux (mkControlStartupQueryPlan hosts (some r)) hosts.length).2).compute_next).1
        = none := by
  have hpos : 0 < hosts.length := List.length_pos.mpr hne
  have hmax : Nat.max 1 hosts.length = hosts.length := Nat.max_eq_right hpos
  have hmk : mkControlStartupQueryPlan hosts (some r)
      = ⟨hosts, r % hosts.length, 0⟩ := by
    unfold mkControlStartupQueryPlan Random.next
    rw [hmax]
  have hlen : (planRun (mkControlStartupQueryPlan hosts (some r)) hosts.length).length
      = hosts.length := by
    rw [hmk]
    exact planRunAux_length hosts _ hosts.length 0 (by omega)
  have hget : ∀ k, k < hosts.length →
      (planRun (mkControlStartupQueryPlan hosts (some r)) hosts.length).get? k
        = hosts.get? ((r + k) % hosts.length) := by
    intro k hk
    rw [hmk]
    unfold planRun
    rw [planRunAux_get? hosts (r % hosts.length) hosts.length 0 k (by omega) hk]
    have e1 : r % hosts.length + 0 + k = r % hosts.length + k := by omega
    rw [e1, Nat.mod_add_mod]
  have hrot : planRun (mkControlStartupQueryPlan hosts (some r)) hosts.length
      = hosts.rotate (r % hosts.length) := by
    apply List.ext_get?_iff.mpr
    intro k
    by_cases hk : k < hosts.length
    · rw [hget k hk, List.get?_rotate hk]
      have e2 : (k + r % hosts.length) % hosts.length = (r + k) % hosts.length := by
        rw [Nat.add_comm, Nat.mod_add_mod]
      rw [e2]
    · rw [List.get?_eq_none.mpr (by rw [hlen]; omega),
        List.get?_eq_none.mpr (by rw [List.length_rotate]; omega)]
  refine ⟨hrot, ?_, hget, ?_⟩
  · rw [hrot]
    exact List.rotate_perm hosts (r % hosts.length)
  · have hstate : (planRunAux (mkControlStartupQueryPlan hosts (some r)) hosts.length).2
        = ⟨hosts, r % hosts.length, 0 + hosts.length⟩ := by
      rw [hmk]
      exact planRunAux_state hosts _ hosts.length 0 (by omega)
    rw [hstate, compute_next_of_ge hosts _ (0 + hosts.length) (by omega)]

/-- Witness for C3: three hosts and seed 4 start at position 1 and cover
the list exactly once before exhaustion. -/
theorem startup_plan_cyclic_cover_witness :
    planRun (mkControlStartupQueryPlan [10, 20, 30] (some 4)) 3 = [20, 30, 10]
    ∧ (((planRunAux (mkControlStartupQueryPlan [10, 20, 30] (some 4)) 3).2).compute_next).1
        = none := by
  have h := startup_plan_cyclic_cover [10, 20, 30] 4 (by decide)
  exact ⟨h.1.trans (by decide), h.2.2.2⟩

/-! Helper lemmas for the double-buffered bulk schema refresh. -/

lemma mem_ite_single {β : Type} {c : Prop} [Decidable c] {x b : β}
    (h : b ∈ if c then [x] else []) : b = x := by
  by_cases hc : c
  · rw [if_pos hc] at h
    simpa using h
  · rw [if_neg hc] at h
    simp at h

lemma schemaUpdates_isUpdateOp (r : SchemaResults) :
    ∀ a ∈ schemaUpdates r, isUpdateOp a = true := by
  intro a h
  simp only [schemaUpdates, List.mem_append] at h
  rcases h with (((((((h | h) | h) | h) | h) | h) | h) | h) <;>
    (obtain rfl := mem_ite_single h; rfl)

lemma isUpdateOp_isMetadataOp (a : Action) (h : isUpdateOp a = true) :
    isMetadataOp a = true := by
  simp [isMetadataOp, h]

lemma isUpdateOp_ne_swap (a : Action) (h : isUpdateOp a = true) :
    a ≠ Action.swapToBackAndUpdateFront := by
  cases a <;> simp_all [isUpdateOp]

lemma front_unchanged (l : List Action) :
    ∀ m : MetadataBuffers, (∀ a ∈ l, a ≠ Action.swapToBackAndUpdateFront) →
      (metaApplyList m l).front = m.front := by
  induction l with
  | nil => intro m _; rfl
  | cons a t ih =>
    intro m h
    have ha := h a (List.mem_cons_self a t)
    have hstep : metaApplyList m (a :: t) = metaApplyList (metaApply m a) t := rfl
    have hfront : (metaApply m a).front = m.front := by
      by_cases h1 : a = Action.clearAndUpdateBack
      · simp [metaApply, h1]
      · by_cases h2 : isUpdateOp a
        · simp [metaApply, h1, h2]
        · simp [metaApply, h1, h2, ha]
    rw [hstep, ih (metaApply m a) (fun b hb => h b (List.mem_cons_of_mem a hb)), hfront]

lemma back_accumulates (l : List Action) :
    ∀ m : MetadataBuffers, (∀ a ∈ l, isUpdateOp a = true) →
      metaApplyList m l = ⟨m.front, m.back ++ l⟩ := by
  induction l with
  | nil => intro m _; simp [metaApplyList]
  | cons a t ih =>
    intro m h
    have ha := h a (List.mem_cons_self a t)
    have h1 : a ≠ Action.clearAndUpdateBack := by
      intro e
      subst e
      simp [isUpdateOp] at ha
    have hstep : metaApplyList m (a :: t) = metaApplyList (metaApply m a) t := rfl
    have happ : metaApply m a = ⟨m.front, m.back ++ [a]⟩ := by
      simp [metaApply, h1, ha]
    rw [hstep, happ, ih _ (fun b hb => h b (List.mem_cons_of_mem a hb))]
    simp

lemma on_query_meta_schema_filter (tokenAware isInitial : Bool) (r : SchemaResults) :
    (on_query_meta_schema false true tokenAware r isInitial).filter isMetadataOp
      = Action.clearAndUpdateBack ::
          (schemaUpdates r ++ [Action.swapToBackAndUpdateFront]) := by
  have hu : (schemaUpdates r).filter isMetadataOp = schemaUpdates r :=
    List.filter_eq_self.mpr (fun a ha => isUpdateOp_isMetadataOp a (schemaUpdates_isUpdateOp r a ha))
  cases tokenAware <;> cases isInitial <;>
    simp [on_query_meta_schema, List.filter_append, hu, isMetadataOp, isUpdateOp]

/-- C4: with schema tracking on, the bulk schema refresh performs exactly
one clear_and_update_back, then one update_* per present result in program
order, then a single swap_to_back_and_update_front; the front buffer is
unchanged by every proper prefix of that sequence and holds the complete
new snapshot after the swap. -/
theorem bulk_schema_refresh_double_buffered (tokenAware isInitial : Bool)
    (r : SchemaResults) (m : MetadataBuffers) :
    ((on_query_meta_schema false true tokenAware r isInitial).filter isMetadataOp
        = Action.clearAndUpdateBack ::
            (schemaUpdates r ++ [Action.swapToBackAndUpdateFront]))
    ∧ (∀ k, k < ((on_query_meta_schema false true tokenAware r isInitial).filter
          isMetadataOp).length →
        (metaApplyList m (((on_query_meta_schema false true tokenAware r isInitial).filter
            isMetadataOp).take k)).front = m.front)
    ∧ (metaApplyList m ((on_query_meta_schema false true tokenAware r isInitial).filter
          isMetadataOp)).front = schemaUpdates r := by
  have hf := on_query_meta_schema_filter tokenAware isInitial r
  refine ⟨hf, ?_, ?_⟩
  · intro k hk
    rw [hf] at hk ⊢
    apply front_unchanged
    intro a ha
    have hsplit : Action.clearAndUpdateBack ::
          (schemaUpdates r ++ [Action.swapToBackAndUpdateFront])
        = (Action.clearAndUpdateBack :: schemaUpdates r)
            ++ [Action.swapToBackAndUpdateFront] := by simp
    rw [hsplit, List.take_append_of_le_length (by simp at hk ⊢; omega)] at ha
    have ha2 : a ∈ Action.clearAndUpdateBack :: schemaUpdates r :=
      List.take_subset _ _ ha
    rcases List.mem_cons.mp ha2 with rfl | hmem
    · simp
    · exact isUpdateOp_ne_swap a (schemaUpdates_isUpdateOp r a hmem)
  · rw [hf]
    have hclear : metaApply m Action.clearAndUpdateBack = ⟨m.front, []⟩ := by
      simp [metaApply]
    have hstep : metaApplyList m (Action.clearAndUpdateBack ::
          (schemaUpdates r ++ [Action.swapToBackAndUpdateFront]))
        = metaApplyList ⟨m.front, []⟩
            (schemaUpdates r ++ [Action.swapToBackAndUpdateFront]) := by
      show metaApplyList (metaApply m Action.clearAndUpdateBack) _ = _
      rw [hclear]
    rw [hstep]
    have happ : metaApplyList (⟨m.front, []⟩ : MetadataBuffers)
          (schemaUpdates r ++ [Action.swapToBackAndUpdateFront])
        = metaApplyList (metaApplyList ⟨m.front, []⟩ (schemaUpdates r))
            [Action.swapToBackAndUpdateFront] := by
      simp [metaApplyList, List.foldl_append]
    rw [happ, back_accumulates (schemaUpdates r) _ (schemaUpdates_isUpdateOp r)]
    simp [metaApplyList, metaApply, isUpdateOp]

/-- Witness for C4: with every result present, the front buffer still shows
the old snapshot after the first three metadata calls and the complete new
snapshot at the end. -/
theorem bulk_schema_refresh_double_buffered_witness :
    (3 < ((on_query_meta_schema false true true
        ⟨true, true, true, true, true, true, true, true⟩ true).filter isMetadataOp).length)
    ∧ (metaApplyList ⟨[Action.logError], []⟩
        (((on_query_meta_schema false true true
            ⟨true, true, true, true, true, true, true, true⟩ true).filter
              isMetadataOp).take 3)).front = [Action.logError]
    ∧ (metaApplyList ⟨[Action.logError], []⟩
        ((on_query_meta_schema false true true
            ⟨true, true, true, true, true, true, true, true⟩ true).filter
              isMetadataOp)).front
        = schemaUpdates ⟨true, true, true, true, true, true, true, true⟩ :=
  ⟨by decide,
   (bulk_schema_refresh_double_buffered true true
      ⟨true, true, true, true, true, true, true, true⟩ ⟨[Action.logError], []⟩).2.1 3 (by decide),
   (bulk_schema_refresh_double_buffered true true
      ⟨true, true, true, true, true, true, true, true⟩ ⟨[Action.logError], []⟩).2.2⟩

/-- C7: the bulk schema read is issued exactly when schema tracking or
token-aware routing is on; the keyspaces query always heads the chain; for
V >= 3.0.0 with schema tracking the chain is exactly the modern eight-table
read; for V < 3.0.0 with schema tracking it holds the legacy tables and
columns queries, the legacy user types query exactly when V >= 2.1.0, the
legacy functions and aggregates queries exactly when V >= 2.2.0, and never
a views or indexes query. -/
theorem query_meta_schema_version_gates (use_schema token_aware : Bool)
    (v : VersionNumber) :
    (query_meta_schema use_schema token_aware v = none
      ↔ (use_schema = false ∧ token_aware = false))
    ∧ (∀ qs, query_meta_schema use_schema token_aware v = some qs →
        (("keyspaces",
            if v.geb ⟨3, 0, 0⟩ then SELECT_KEYSPACES_30 else SELECT_KEYSPACES_20) ∈ qs)
        ∧ (v.geb ⟨3, 0, 0⟩ = true → use_schema = true →
            qs = [("keyspaces", SELECT_KEYSPACES_30),
                  ("tables", SELECT_TABLES_30),
                  ("views", SELECT_VIEWS_30),
                  ("columns", SELECT_COLUMNS_30),
                  ("indexes", SELECT_INDEXES_30),
                  ("user_types", SELECT_USERTYPES_30),
                  ("functions", SELECT_FUNCTIONS_30),
                  ("aggregates", SELECT_AGGREGATES_30)])
        ∧ (v.geb ⟨3, 0, 0⟩ = false → use_schema = true →
            ("tables", SELECT_COLUMN_FAMILIES_20) ∈ qs
            ∧ ("columns", SELECT_COLUMNS_20) ∈ qs
            ∧ (("user_types", SELECT_USERTYPES_21) ∈ qs ↔ v.geb ⟨2, 1, 0⟩ = true)
            ∧ (("functions", SELECT_FUNCTIONS_22) ∈ qs ↔ v.geb ⟨2, 2, 0⟩ = true)
            ∧ (("aggregates", SELECT_AGGREGATES_22) ∈ qs ↔ v.geb ⟨2, 2, 0⟩ = true)
            ∧ (∀ q ∈ qs, q.2 ≠ SELECT_VIEWS_30 ∧ q.2 ≠ SELECT_INDEXES_30))) := by
  constructor
  · cases use_schema <;> cases token_aware <;>
      cases h30 : VersionNumber.geb v ⟨3, 0, 0⟩ <;>
        simp [query_meta_schema, h30]
  · intro qs hq
    cases h30 : VersionNumber.geb v ⟨3, 0, 0⟩ <;>
      cases h21 : VersionNumber.geb v ⟨2, 1, 0⟩ <;>
        cases h22 : VersionNumber.geb v ⟨2, 2, 0⟩ <;>
          cases use_schema <;> cases token_aware <;>
            simp [query_meta_schema, h30, h21, h22] at hq <;>
            subst hq <;>
            (refine ⟨by decide, ?_, ?_⟩ <;>
              (intro hx hy
               first
                 | rfl
                 | (exact absurd hx (by decide))
                 | (exact absurd hy (by decide))
                 | (exact ⟨by decide, by decide, by decide, by decide, by decide, by decide⟩)))

/-- Witness for C7: version 3.11.0 with schema tracking produces the modern
chain headed by keyspaces; version 2.0.0 omits the legacy user types
query. -/
theorem query_meta_schema_version_gates_witness :
    (("keyspaces",
        if VersionNumber.geb ⟨3, 11, 0⟩ ⟨3, 0, 0⟩ then SELECT_KEYSPACES_30
        else SELECT_KEYSPACES_20)
      ∈ [("keyspaces", SELECT_KEYSPACES_30), ("tables", SELECT_TABLES_30),
         ("views", SELECT_VIEWS_30), ("columns", SELECT_COLUMNS_30),
         ("indexes", SELECT_INDEXES_30), ("user_types", SELECT_USERTYPES_30),
         ("functions", SELECT_FUNCTIONS_30), ("aggregates", SELECT_AGGREGATES_30)])
    ∧ (("user_types", SELECT_USERTYPES_21)
        ∈ [("keyspaces", SELECT_KEYSPACES_20), ("tables", SELECT_COLUMN_FAMILIES_20),
           ("columns", SELECT_COLUMNS_20)]
      ↔ VersionNumber.geb ⟨2, 0, 0⟩ ⟨2, 1, 0⟩ = true) :=
  ⟨((query_meta_schema_version_gates true false ⟨3, 11, 0⟩).2
      [("keyspaces", SELECT_KEYSPACES_30), ("tables", SELECT_TABLES_30),
       ("views", SELECT_VIEWS_30), ("columns", SELECT_COLUMNS_30),
       ("indexes", SELECT_INDEXES_30), ("user_types", SELECT_USERTYPES_30),
       ("functions", SELECT_FUNCTIONS_30), ("aggregates", SELECT_AGGREGATES_30)]
      (by decide)).1,
   (((query_meta_schema_version_gates true false ⟨2, 0, 0⟩).2
      [("keyspaces", SELECT_KEYSPACES_20), ("tables", SELECT_COLUMN_FAMILIES_20),
       ("columns", SELECT_COLUMNS_20)]
      (by decide)).2.2 (by decide) rfl).2.2.1⟩

/-! Helper lemmas for host reconciliation. -/

lemma token_block_no_lb (ta : Bool) (ca : Address) (host : Host) (row : Row)
    (ty : UpdateHostType) (x : Address) (b : Bool) :
    Action.lbHostAddRemove x b ∉ update_node_info_token_block ta ca host row ty := by
  unfold update_node_info_token_block
  cases ta
  · simp
  · cases htok : row.tokens with
    | none => split_ifs <;> simp
    | some b2 => cases b2 <;> split_ifs <;> simp

lemma token_block_no_onRemove (ta : Bool) (ca : Address) (host : Host) (row : Row)
    (ty : UpdateHostType) (x : Address) :
    Action.onRemove x ∉ update_node_info_token_block ta ca host row ty := by
  unfold update_node_info_token_block
  cases ta
  · simp
  · cases htok : row.tokens with
    | none => split_ifs <;> simp
    | some b2 => cases b2 <;> split_ifs <;> simp

lemma update_node_info_trace (token_aware : Bool) (ca : Address) (host : Host)
    (row : Row) (ty : UpdateHostType) :
    (update_node_info token_aware ca host row ty).2
      = (if (((row.rack.getD "" ≠ "" ∧ row.rack.getD "" ≠ host.rack)
              ∨ (row.data_center.getD "" ≠ "" ∧ row.data_center.getD "" ≠ host.dc))
            ∧ ¬ host.wasJustAdded = true)
         then [Action.lbHostAddRemove host.address false,
               Action.lbHostAddRemove host.address true]
         else [])
        ++ update_node_info_token_block token_aware ca host row ty := by
  simp only [update_node_info]
  by_cases hc : (((row.rack.getD "" ≠ "" ∧ row.rack.getD "" ≠ host.rack)
      ∨ (row.data_center.getD "" ≠ "" ∧ row.data_center.getD "" ≠ host.dc))
      ∧ ¬ host.wasJustAdded = true)
  · rw [if_pos hc, if_pos hc, if_pos hc]
    rfl
  · rw [if_neg hc, if_neg hc, if_neg hc]
    rfl

/-- C9 (amended): during reconciliation the load-balancing policy receives
the rebalance pair (remove then re-add) exactly when the row's rack or DC
value is non-empty and differs from the stored value, and the host is not
brand-new; rack and DC are updated under the same condition, the release
version is updated when it parses, the listen address when the peer column
decodes, the tokens when present; the host is never removed from the
session. -/
theorem update_node_info_reconciliation (token_aware : Bool) (ca : Address)
    (host : Host) (row : Row) (ty : UpdateHostType) :
    ((Action.lbHostAddRemove host.address false
          ∈ (update_node_info token_aware ca host row ty).2
        ∧ Action.lbHostAddRemove host.address true
          ∈ (update_node_info token_aware ca host row ty).2)
      ↔ (((row.rack.getD "" ≠ "" ∧ row.rack.getD "" ≠ host.rack)
            ∨ (row.data_center.getD "" ≠ "" ∧ row.data_center.getD "" ≠ host.dc))
          ∧ host.wasJustAdded = false))
    ∧ ((update_node_info token_aware ca host row ty).1.rack
        = if (row.rack.getD "" ≠ "" ∧ row.rack.getD "" ≠ host.rack)
              ∨ (row.data_center.getD "" ≠ "" ∧ row.data_center.getD "" ≠ host.dc)
          then row.rack.getD "" else host.rack)
    ∧ ((update_node_info token_aware ca host row ty).1.dc
        = if (row.rack.getD "" ≠ "" ∧ row.rack.getD "" ≠ host.rack)
              ∨ (row.data_center.getD "" ≠ "" ∧ row.data_center.getD "" ≠ host.dc)
          then row.data_center.getD "" else host.dc)
    ∧ ((update_node_info token_aware ca host row ty).1.cassandraVersion
        = (VersionNumber.parse (row.release_version.getD "")).getD host.cassandraVersion)
    ∧ ((update_node_info token_aware ca host row ty).1.listenAddress
        = (match row.peer with
           | some (some ip) => some ⟨ip, ca.port⟩
           | _ => host.listenAddress))
    ∧ (token_aware = true → row.tokens = some true →
        (if ty = UpdateHostType.UPDATE_HOST_AND_BUILD
         then Action.tokenMapHostUpdate host.address
         else Action.tokenMapHostAdd host.address)
          ∈ (update_node_info token_aware ca host row ty).2)
    ∧ (∀ x : Address, Action.onRemove x ∉ (update_node_info token_aware ca host row ty).2) := by
  refine ⟨?_, ?_, ?_, ?_, ?_, ?_, ?_⟩
  · rw [update_node_info_trace]
    constructor
    · intro hmem
      rcases List.mem_append.mp hmem.1 with h | h
      · by_cases hc : (((row.rack.getD "" ≠ "" ∧ row.rack.getD "" ≠ host.rack)
            ∨ (row.data_center.getD "" ≠ "" ∧ row.data_center.getD "" ≠ host.dc))
            ∧ ¬ host.wasJustAdded = true)
        · exact ⟨hc.1, by simpa using hc.2⟩
        · rw [if_neg hc] at h
          simp at h
      · exact absurd h (token_block_no_lb token_aware ca host row ty host.address false)
    · rintro ⟨hch, hj⟩
      have hc : (((row.rack.getD "" ≠ "" ∧ row.rack.getD "" ≠ host.rack)
          ∨ (row.data_center.getD "" ≠ "" ∧ row.data_center.getD "" ≠ host.dc))
          ∧ ¬ host.wasJustAdded = true) := ⟨hch, by simp [hj]⟩
      rw [if_pos hc]
      constructor <;> simp
  · simp only [update_node_info]
    cases hparse : VersionNumber.parse (row.release_version.getD "") <;>
      rcases hpeer : row.peer with _ | (_ | ip) <;>
        split_ifs <;> simp
  · simp only [update_node_info]
    cases hparse : VersionNumber.parse (row.release_version.getD "") <;>
      rcases hpeer : row.peer with _ | (_ | ip) <;>
        split_ifs <;> simp
  · simp only [update_node_info]
    cases hparse : VersionNumber.parse (row.release_version.getD "") <;>
      rcases hpeer : row.peer with _ | (_ | ip) <;>
        split_ifs <;> simp
  · simp only [update_node_info]
    cases hparse : VersionNumber.parse (row.release_version.getD "") <;>
      rcases hpeer : row.peer with _ | (_ | ip) <;>
        split_ifs <;> simp
  · intro hta htok
    rw [update_node_info_trace]
    refine List.mem_append.mpr (Or.inr ?_)
    subst hta
    unfold update_node_info_token_block
    rw [htok]
    refine List.mem_append.mpr (Or.inr ?_)
    by_cases hty : ty = UpdateHostType.UPDATE_HOST_AND_BUILD <;> simp [hty]
  · intro x hx
    rw [update_node_info_trace] at hx
    rcases List.mem_append.mp hx with h | h
    · by_cases hc : (((row.rack.getD "" ≠ "" ∧ row.rack.getD "" ≠ host.rack)
          ∨ (row.data_center.getD "" ≠ "" ∧ row.data_center.getD "" ≠ host.dc))
          ∧ ¬ host.wasJustAdded = true)
      · rw [if_pos hc] at h
        simp at h
      · rw [if_neg hc] at h
        simp at h
    · exact absurd h (token_block_no_onRemove token_aware ca host row ty x)

/-- Counterexample to C9 as stated: a row whose rack column holds the empty
string differing from the stored rack "r1" (dc unchanged, host not
brand-new) changes the rack value in the claim's sense, yet the code fires
no rebalance callback because it requires the new value to be non-empty. -/
theorem update_node_info_reconciliation_counterexample :
    ¬ ((Action.lbHostAddRemove ⟨IpAddr.v4 1, 9042⟩ false
          ∈ (update_node_info false ⟨IpAddr.v4 1, 9042⟩
              ⟨⟨IpAddr.v4 1, 9042⟩, "r1", "dc1", ⟨3, 0, 0⟩, none, false, true⟩
              ⟨some "", some "dc1", none, none, none, none⟩
              UpdateHostType.UPDATE_HOST_AND_BUILD).2
        ∧ Action.lbHostAddRemove ⟨IpAddr.v4 1, 9042⟩ true
          ∈ (update_node_info false ⟨IpAddr.v4 1, 9042⟩
              ⟨⟨IpAddr.v4 1, 9042⟩, "r1", "dc1", ⟨3, 0, 0⟩, none, false, true⟩
              ⟨some "", some "dc1", none, none, none, none⟩
              UpdateHostType.UPDATE_HOST_AND_BUILD).2)
      ↔ (((Option.getD (some "") "" ≠ "r1" ∨ Option.getD (some "dc1") "" ≠ "dc1")
          ∧ (false : Bool) = false))) := by
  decide

/-- Witness for C9 (amended): a row with a changed non-empty rack on a
not-just-added host fires the rebalance pair, and its tokens column feeds
the token map. -/
theorem update_node_info_reconciliation_witness :
    (Action.lbHostAddRemove ⟨IpAddr.v4 1, 9042⟩ false
        ∈ (update_node_info true ⟨IpAddr.v4 1, 9042⟩
            ⟨⟨IpAddr.v4 1, 9042⟩, "r1", "dc1", ⟨3, 0, 0⟩, none, false, true⟩
            ⟨some "r2", some "dc1", some "3.11.4", none, some "murmur", some true⟩
            UpdateHostType.UPDATE_HOST_AND_BUILD).2
      ∧ Action.lbHostAddRemove ⟨IpAddr.v4 1, 9042⟩ true
        ∈ (update_node_info true ⟨IpAddr.v4 1, 9042⟩
            ⟨⟨IpAddr.v4 1, 9042⟩, "r1", "dc1", ⟨3, 0, 0⟩, none, false, true⟩
            ⟨some "r2", some "dc1", some "3.11.4", none, some "murmur", some true⟩
            UpdateHostType.UPDATE_HOST_AND_BUILD).2)
    ∧ Action.tokenMapHostUpdate ⟨IpAddr.v4 1, 9042⟩
        ∈ (update_node_info true ⟨IpAddr.v4 1, 9042⟩
            ⟨⟨IpAddr.v4 1, 9042⟩, "r1", "dc1", ⟨3, 0, 0⟩, none, false, true⟩
            ⟨some "r2", some "dc1", some "3.11.4", none, some "murmur", some true⟩
            UpdateHostType.UPDATE_HOST_AND_BUILD).2 :=
  ⟨(update_node_info_reconciliation true ⟨IpAddr.v4 1, 9042⟩
      ⟨⟨IpAddr.v4 1, 9042⟩, "r1", "dc1", ⟨3, 0, 0⟩, none, false, true⟩
      ⟨some "r2", some "dc1", some "3.11.4", none, some "murmur", some true⟩
      UpdateHostType.UPDATE_HOST_AND_BUILD).1.mpr ⟨by decide, by decide⟩,
   (update_node_info_reconciliation true ⟨IpAddr.v4 1, 9042⟩
      ⟨⟨IpAddr.v4 1, 9042⟩, "r1", "dc1", ⟨3, 0, 0⟩, none, false, true⟩
      ⟨some "r2", some "dc1", some "3.11.4", none, some "murmur", some true⟩
      UpdateHostType.UPDATE_HOST_AND_BUILD).2.2.2.2.2.1 rfl rfl⟩

end Cass
